import Mathlib

/-!
Shallow embedding of `src/app.py` (Instagram Marketing Intelligence
Streamlit dashboard).  Probabilities and numeric cell values are embedded
as rationals; pandas data frames as lists of named, typed columns; the
scikit-learn pipeline objects as explicit records of their hyperparameters
and fitted state.  Each section points back to the lines of `app.py` it
embeds.
-/

namespace InstagramApp

/-! ### Insight tier (app.py lines 175-182)

The AI-Insights branch maps the classifier probability to one of three
messages: `viral_prob >= 0.7` gives `st.success` ("high"),
`viral_prob >= 0.4` gives `st.warning` ("moderate"), otherwise `st.error`
("low"). -/

inductive Tier
  | high
  | moderate
  | low
deriving DecidableEq, Repr

/-- The if/elif/else chain of app.py lines 177-182, applied to the
classifier probability once Analyze has run. -/
def insightTier (p : ℚ) : Tier :=
  if p ≥ 7/10 then .high
  else if p ≥ 4/10 then .moderate
  else .low

/-- The message text rendered for each tier (app.py lines 178, 180, 182). -/
def tierMessage (p : ℚ) : String :=
  match insightTier p with
  | .high => "🚀 High virality potential"
  | .moderate => "⚠️ Moderate virality"
  | .low => "❌ Low virality — optimize content"

/-! ### KPI card rendering (app.py lines 145-161)

The card bodies are f-strings of the form
`f"{viral_prob*100:.2f}%" if viral_prob else "--"`.
Python evaluates the condition by truthiness: `None` and `0.0` are both
falsy, so the formatted value is shown only when the prediction is present
*and* nonzero.  `pyFormatFixed` embeds the `:.Nf` fixed-point format
(round-half-even, as Python formats floats). -/

/-- Python round-half-even of a rational to an integer. -/
def roundHalfEven (q : ℚ) : ℤ :=
  let f : ℤ := Rat.floor q
  let frac : ℚ := q - f
  if frac < 1/2 then f
  else if 1/2 < frac then f + 1
  else if f % 2 = 0 then f else f + 1

/-- Left-pad a digit string with zeros to width `w`. -/
def padZeros (w : Nat) (s : String) : String :=
  (List.replicate (w - s.length) '0').asString ++ s

/-- Python `f"{q:.precf}"`: fixed-point with `prec` digits after the point. -/
def pyFormatFixed (prec : Nat) (q : ℚ) : String :=
  let n : ℤ := roundHalfEven (q * ((10 : ℚ) ^ prec))
  let sign : String := if q < 0 then "-" else ""
  let m : Nat := n.natAbs
  let intPart : Nat := m / 10 ^ prec
  let fracPart : Nat := m % 10 ^ prec
  sign ++ Nat.repr intPart ++ "." ++ padZeros prec (Nat.repr fracPart)

/-- Python truthiness of an optional float: `None` and `0.0` are falsy. -/
def pyTruthy : Option ℚ → Bool
  | none => false
  | some v => v ≠ 0

/-- Viral-probability KPI card body (app.py line 151):
`f"{viral_prob*100:.2f}%" if viral_prob else "--"`. -/
def viralCardText (viral_prob : Option ℚ) : String :=
  if pyTruthy viral_prob then pyFormatFixed 2 (viral_prob.getD 0 * 100) ++ "%"
  else "--"

/-- Predicted-engagement KPI card body (app.py line 159):
`f"{engagement_pred:.4f}" if engagement_pred else "--"`. -/
def engagementCardText (engagement_pred : Option ℚ) : String :=
  if pyTruthy engagement_pred then pyFormatFixed 4 (engagement_pred.getD 0)
  else "--"

/-! ### Data frames

A pandas `DataFrame` is embedded column-wise: each column has a name, a
dtype (`object` for string columns, `numeric` for everything else) and its
list of cell values. -/

inductive CellVal
  | str : String → CellVal
  | num : ℚ → CellVal
deriving DecidableEq, Repr

inductive Dtype
  | object
  | numeric
deriving DecidableEq, Repr

structure Column where
  name : String
  dtype : Dtype
  vals : List CellVal
deriving DecidableEq, Repr

structure DataFrame where
  cols : List Column
deriving DecidableEq, Repr

/-- `df[n]`: the first column with the given name, if any. -/
def DataFrame.getCol (df : DataFrame) (n : String) : Option Column :=
  df.cols.find? (fun c => c.name == n)

/-- `df.drop(columns=names)`. -/
def DataFrame.dropCols (df : DataFrame) (names : List String) : DataFrame :=
  ⟨df.cols.filter (fun c => !(names.contains c.name))⟩

/-- Column names of `df.select_dtypes(include="object")`. -/
def DataFrame.objectCols (df : DataFrame) : List String :=
  (df.cols.filter (fun c => c.dtype == .object)).map Column.name

/-- Column names of `df.select_dtypes(exclude="object")`. -/
def DataFrame.numericCols (df : DataFrame) : List String :=
  (df.cols.filter (fun c => c.dtype != .object)).map Column.name

/-- The string values of a column (object columns hold strings). -/
def Column.strVals (c : Column) : List String :=
  c.vals.filterMap (fun v => match v with | .str s => some s | .num _ => none)

/-- Lexicographic comparison of strings by code point, the order Python
`sorted` and numpy use on string data. -/
def strLeAux : List Char → List Char → Bool
  | [], _ => true
  | _ :: _, [] => false
  | a :: as, b :: bs =>
    if a.toNat < b.toNat then true
    else if b.toNat < a.toNat then false
    else strLeAux as bs

def strLe (a b : String) : Bool := strLeAux a.data b.data

/-- Insertion step of a stable sort by the comparison `le`. -/
def insertBy {α : Type} (le : α → α → Bool) (x : α) : List α → List α
  | [] => [x]
  | y :: t => if le x y then x :: y :: t else y :: insertBy le x t

/-- Stable sort by the comparison `le`. -/
def sortBy {α : Type} (le : α → α → Bool) : List α → List α
  | [] => []
  | x :: t => insertBy le x (sortBy le t)

/-- Sorted list of the distinct elements of `xs`
(`sorted(pd.Series.unique())`, also `np.unique`). -/
def sortedUnique (xs : List String) : List String :=
  sortBy strLe xs.eraseDups

/-! ### scikit-learn pipeline (app.py lines 44-71)

`OneHotEncoder`, `ColumnTransformer`, `Pipeline` and the two random
forests are embedded as records of their hyperparameters and fitted
state; the ensembles themselves are black boxes behind the predict
contract, so a fitted pipeline records exactly the data its fit was a
deterministic function of: hyperparameters, the RNG seed actually used,
and the training data. -/

inductive HandleUnknown
  | error
  | ignore
deriving DecidableEq, Repr

structure OneHotEncoder where
  handle_unknown : HandleUnknown
deriving DecidableEq, Repr

/-- Categories learned for one categorical column at fit time:
`np.unique` of the values seen. -/
def fitCategories (xs : List String) : List String := sortedUnique xs

/-- Transform of one categorical value by a fitted encoder.  A category
seen at fit time becomes its indicator vector; an unknown one raises with
`handle_unknown="error"` and becomes the all-zero vector with
`handle_unknown="ignore"`. -/
def oneHotTransform (enc : OneHotEncoder) (categories : List String)
    (v : String) : Except String (List ℚ) :=
  if categories.contains v then
    .ok (categories.map (fun c => if c == v then 1 else 0))
  else
    match enc.handle_unknown with
    | .ignore => .ok (List.replicate categories.length 0)
    | .error => .error "Found unknown categories during transform"

/-- Fitted state of the `ColumnTransformer` of app.py lines 53-56: the
encoder hyperparameters, the learned categories per categorical column,
and the passthrough numeric column names. -/
structure FittedPreprocessor where
  encoder : OneHotEncoder
  catCategories : List (String × List String)
  numCols : List String
deriving DecidableEq, Repr

/-- Fit the `ColumnTransformer` on the feature matrix `X`. -/
def fitPreprocessor (enc : OneHotEncoder) (cat_cols num_cols : List String)
    (X : DataFrame) : FittedPreprocessor :=
  { encoder := enc
  , catCategories := cat_cols.map (fun n =>
      (n, fitCategories ((X.getCol n).elim [] Column.strVals)))
  , numCols := num_cols }

/-- A single-row feature table: field name to cell value, in order. -/
abbrev Row := List (String × CellVal)

def Row.get (r : Row) (n : String) : Option CellVal :=
  (r.find? (fun kv => kv.1 == n)).map Prod.snd

/-- `mapM` over `Except`, written out: the first raised exception
propagates, otherwise the list of results is returned. -/
def mapExcept {α β : Type} (f : α → Except String β) :
    List α → Except String (List β)
  | [] => .ok []
  | a :: t => do
    let b ← f a
    let bs ← mapExcept f t
    return b :: bs

/-- Transform of one input row by the fitted preprocessor: one-hot blocks
for the categorical columns followed by the passthrough numeric values.
A missing or wrongly-typed field raises (as pandas/sklearn would). -/
def transformRow (P : FittedPreprocessor) (r : Row) :
    Except String (List ℚ) := do
  let catParts ← mapExcept (fun nc =>
    match Row.get r nc.1 with
    | some (.str s) => oneHotTransform P.encoder nc.2 s
    | _ => .error "categorical column missing from input") P.catCategories
  let numParts ← mapExcept (fun n =>
    match Row.get r n with
    | some (.num q) => Except.ok q
    | _ => .error "numeric column missing from input") P.numCols
  return catParts.flatten ++ numParts

structure RandomForestParams where
  n_estimators : Nat
  random_state : Option Nat
deriving DecidableEq, Repr

/-- A fitted `Pipeline([("prep", preprocessor), ("model", forest)])`.
The tree ensemble is a black-box deterministic function of the recorded
fields, so the record keeps the fitted preprocessor, the forest
hyperparameters, the RNG seed the fit actually used, and the training
data. -/
structure FittedPipeline where
  prep : FittedPreprocessor
  params : RandomForestParams
  seedUsed : Nat
  trainX : DataFrame
  trainY : List CellVal
deriving DecidableEq, Repr

/-- `pipeline.fit(X, y)`.  `entropy` models the ambient RNG state the
library would draw from when `random_state` is `None`; with an explicit
`random_state` the seed is that fixed value and `entropy` is unused. -/
def pipelineFit (enc : OneHotEncoder) (cat_cols num_cols : List String)
    (params : RandomForestParams) (X : DataFrame) (y : List CellVal)
    (entropy : Nat) : FittedPipeline :=
  { prep := fitPreprocessor enc cat_cols num_cols X
  , params := params
  , seedUsed := params.random_state.getD entropy
  , trainX := X
  , trainY := y }

structure TrainedModels where
  viral_model : FittedPipeline
  engagement_model : FittedPipeline
deriving DecidableEq, Repr

/-- `train_models(df)`, app.py lines 44-71: drop the two label columns,
split the remaining columns by dtype, build the shared preprocessor
(`OneHotEncoder(handle_unknown="ignore")` on the object columns,
passthrough on the rest) and fit a 150-tree classifier on `is_viral` and
a 150-tree regressor on `normalized_engagement`, both with
`random_state=42`. -/
def train_models (df : DataFrame) (entropy : Nat) : TrainedModels :=
  let X := df.dropCols ["is_viral", "normalized_engagement"]
  let y_class := (df.getCol "is_viral").elim [] Column.vals
  let y_reg := (df.getCol "normalized_engagement").elim [] Column.vals
  let cat_cols := X.objectCols
  let num_cols := X.numericCols
  let enc : OneHotEncoder := { handle_unknown := .ignore }
  { viral_model := pipelineFit enc cat_cols num_cols
      { n_estimators := 150, random_state := some 42 } X y_class entropy
  , engagement_model := pipelineFit enc cat_cols num_cols
      { n_estimators := 150, random_state := some 42 } X y_reg entropy }

/-! ### Sidebar widgets (app.py lines 86-109)

A bounded numeric widget (`st.sidebar.number_input`, `st.sidebar.slider`)
holds a current value; an edit request inside the bounds replaces it and
an out-of-range request is rejected by the widget, so the value never
leaves `[lo, hi]`.  A selectbox always holds one of its options, the
first by default. -/

def boundedWidgetStep (lo hi : ℤ) (cur req : ℤ) : ℤ :=
  if lo ≤ req ∧ req ≤ hi then req else cur

/-- Value of a bounded numeric widget after the interaction history
`reqs`, starting from its default. -/
def boundedWidgetValue (lo hi dflt : ℤ) (reqs : List ℤ) : ℤ :=
  reqs.foldl (boundedWidgetStep lo hi) dflt

/-- `st.sidebar.selectbox(label, options)` over strings: the option at
the selected index, the first option if the index is out of range. -/
def selectboxValue (options : List String) (i : Nat) : String :=
  (options.get? i).getD (options.headD "")

/-- `st.sidebar.selectbox(label, [0, 1])` and friends over integers. -/
def intSelectValue (options : List ℤ) (i : Nat) : ℤ :=
  (options.get? i).getD (options.headD 0)

/-- Options of the four categorical selectboxes, app.py lines 86-93:
`sorted(df[col].unique())`. -/
def selectboxOptions (df : DataFrame) (colName : String) : List String :=
  sortedUnique ((df.getCol colName).elim [] Column.strVals)

/-- One user interaction history per sidebar widget: a selected index for
each selectbox, a list of edit requests for each numeric widget. -/
structure WidgetRequests where
  account_type_idx : Nat
  media_type_idx : Nat
  content_category_idx : Nat
  traffic_source_idx : Nat
  follower_count_reqs : List ℤ
  hashtags_count_reqs : List ℤ
  caption_length_reqs : List ℤ
  post_hour_reqs : List ℤ
  has_cta_idx : Nat
  is_weekend_idx : Nat
  likes_reqs : List ℤ
  comments_reqs : List ℤ
  shares_reqs : List ℤ
  saves_reqs : List ℤ
deriving Repr

/-- The untouched sidebar: every widget still at its default. -/
def noInteraction : WidgetRequests :=
  ⟨0, 0, 0, 0, [], [], [], [], 0, 0, [], [], [], []⟩

/-- Current values of all sidebar widgets. -/
structure WidgetState where
  account_type : String
  media_type : String
  content_category : String
  traffic_source : String
  follower_count : ℤ
  hashtags_count : ℤ
  caption_length : ℤ
  post_hour : ℤ
  has_cta : ℤ
  is_weekend : ℤ
  likes : ℤ
  comments : ℤ
  shares : ℤ
  saves : ℤ
deriving DecidableEq, Repr

/-- Sidebar of app.py lines 86-109: widget values after the interaction
history `r`, with the bounds and defaults as coded. -/
def widgetState (df : DataFrame) (r : WidgetRequests) : WidgetState :=
  { account_type :=
      selectboxValue (selectboxOptions df "account_type") r.account_type_idx
  , media_type :=
      selectboxValue (selectboxOptions df "media_type") r.media_type_idx
  , content_category :=
      selectboxValue (selectboxOptions df "content_category")
        r.content_category_idx
  , traffic_source :=
      selectboxValue (selectboxOptions df "traffic_source")
        r.traffic_source_idx
  , follower_count := boundedWidgetValue 100 1000000 10000 r.follower_count_reqs
  , hashtags_count := boundedWidgetValue 0 30 10 r.hashtags_count_reqs
  , caption_length := boundedWidgetValue 0 300 50 r.caption_length_reqs
  , post_hour := boundedWidgetValue 0 23 18 r.post_hour_reqs
  , has_cta := intSelectValue [0, 1] r.has_cta_idx
  , is_weekend := intSelectValue [0, 1] r.is_weekend_idx
  , likes := boundedWidgetValue 0 50000 500 r.likes_reqs
  , comments := boundedWidgetValue 0 5000 50 r.comments_reqs
  , shares := boundedWidgetValue 0 5000 20 r.shares_reqs
  , saves := boundedWidgetValue 0 5000 30 r.saves_reqs }

/-! ### Feature assembler (app.py lines 117-132) -/

/-- `input_df`: the single-row feature table assembled from the current
widget values, keys in the literal order of the code. -/
def input_df (w : WidgetState) : Row :=
  [ ("account_type", .str w.account_type)
  , ("media_type", .str w.media_type)
  , ("content_category", .str w.content_category)
  , ("traffic_source", .str w.traffic_source)
  , ("follower_count", .num (w.follower_count : ℚ))
  , ("hashtags_count", .num (w.hashtags_count : ℚ))
  , ("caption_length", .num (w.caption_length : ℚ))
  , ("has_cta", .num (w.has_cta : ℚ))
  , ("is_weekend", .num (w.is_weekend : ℚ))
  , ("post_hour", .num (w.post_hour : ℚ))
  , ("likes", .num (w.likes : ℚ))
  , ("comments", .num (w.comments : ℚ))
  , ("shares", .num (w.shares : ℚ))
  , ("saves", .num (w.saves : ℚ)) ]

/-! ### Trend chart (app.py lines 188-193) -/

/-- Numeric sort key of a cell. -/
def cellNum : CellVal → ℚ
  | .num q => q
  | .str _ => 0

/-- Data of `px.area(df.sort_values("post_hour"), x="post_hour",
y="normalized_engagement")`: the dataset's (post_hour,
normalized_engagement) pairs sorted by post_hour. -/
def chartData (df : DataFrame) : List (CellVal × CellVal) :=
  sortBy (fun a b => decide (cellNum a.1 ≤ cellNum b.1))
    (((df.getCol "post_hour").elim [] Column.vals).zip
      ((df.getCol "normalized_engagement").elim [] Column.vals))

/-! ### One render pass (app.py lines 111-195)

Streamlit re-runs the script top to bottom on each interaction.
`renderPass` is one such run after the models are fitted: the two
predict functions are supplied as black boxes (`clf` stands for
`viral_model.predict_proba(input_df)[0][1]`, `reg` for
`engagement_model.predict(input_df)[0]`), `analyze` is the Analyze
button's value for this run. -/

structure RenderOutput where
  viral_prob : Option ℚ
  engagement_pred : Option ℚ
  clf_calls : Nat
  reg_calls : Nat
  viral_card : String
  engagement_card : String
  insight : String
  chart : List (CellVal × CellVal)
deriving Repr

def renderPass (clf reg : Row → ℚ) (df : DataFrame) (r : WidgetRequests)
    (analyze : Bool) : RenderOutput :=
  let w := widgetState df r
  let row := input_df w
  let viral_prob : Option ℚ := if analyze then some (clf row) else none
  let engagement_pred : Option ℚ := if analyze then some (reg row) else none
  { viral_prob := viral_prob
  , engagement_pred := engagement_pred
  , clf_calls := if analyze then 1 else 0
  , reg_calls := if analyze then 1 else 0
  , viral_card := viralCardText viral_prob
  , engagement_card := engagementCardText engagement_pred
  , insight :=
      if analyze then tierMessage (clf row)
      else "👈 Adjust inputs and click **Analyze Post**"
  , chart := chartData df }

/-- A two-row concrete dataset with the schema of
`data/final_instagram_model_data.csv`, used to instantiate theorems. -/
def sampleDF : DataFrame :=
  ⟨[ ⟨"account_type", .object, [.str "Creator", .str "Business"]⟩
   , ⟨"media_type", .object, [.str "Reel", .str "Reel"]⟩
   , ⟨"content_category", .object, [.str "Travel", .str "Food"]⟩
   , ⟨"traffic_source", .object, [.str "Explore", .str "Home"]⟩
   , ⟨"follower_count", .numeric, [.num 10000, .num 200]⟩
   , ⟨"hashtags_count", .numeric, [.num 10, .num 5]⟩
   , ⟨"caption_length", .numeric, [.num 50, .num 80]⟩
   , ⟨"has_cta", .numeric, [.num 1, .num 0]⟩
   , ⟨"is_weekend", .numeric, [.num 0, .num 1]⟩
   , ⟨"post_hour", .numeric, [.num 18, .num 9]⟩
   , ⟨"likes", .numeric, [.num 500, .num 100]⟩
   , ⟨"comments", .numeric, [.num 50, .num 5]⟩
   , ⟨"shares", .numeric, [.num 20, .num 2]⟩
   , ⟨"saves", .numeric, [.num 30, .num 3]⟩
   , ⟨"is_viral", .numeric, [.num 1, .num 0]⟩
   , ⟨"normalized_engagement", .numeric, [.num 1, .num 0]⟩ ]⟩

end InstagramApp

namespace InstagramApp

/-- C1: the insight tier shown after Analyze is "high" iff p ≥ 0.7,
"moderate" iff 0.4 ≤ p < 0.7, and "low" iff p < 0.4; both boundary values
go to the higher tier. -/
theorem insightTier_spec (p : ℚ) :
    (insightTier p = .high ↔ 7/10 ≤ p) ∧
    (insightTier p = .moderate ↔ 4/10 ≤ p ∧ p < 7/10) ∧
    (insightTier p = .low ↔ p < 4/10) := by
  unfold insightTier
  split_ifs with h1 h2
  all_goals refine ⟨?_, ?_, ?_⟩
  all_goals simp_all
  all_goals linarith

/-- C2: in a render pass where Analyze was not pressed, neither model is
called, both predictions stay `None`, and both KPI cards show the
placeholder "--". -/
theorem no_analyze_renders_placeholders (clf reg : Row → ℚ)
    (df : DataFrame) (r : WidgetRequests) :
    (renderPass clf reg df r false).clf_calls = 0 ∧
    (renderPass clf reg df r false).reg_calls = 0 ∧
    (renderPass clf reg df r false).viral_prob = none ∧
    (renderPass clf reg df r false).engagement_pred = none ∧
    (renderPass clf reg df r false).viral_card = "--" ∧
    (renderPass clf reg df r false).engagement_card = "--" := by
  simp [renderPass, viralCardText, engagementCardText, pyTruthy]

/-- C3: on an analyzed input whose classifier probability is exactly 0
(and whose regressor prediction is exactly 0), the KPI cards render the
placeholder "--" rather than the formatted values "0.00%" and "0.0000",
because the f-string condition tests Python truthiness and 0.0 is falsy. -/
theorem analyzed_zero_renders_placeholder (clf reg : Row → ℚ)
    (df : DataFrame) (r : WidgetRequests)
    (hc : clf (input_df (widgetState df r)) = 0)
    (hr : reg (input_df (widgetState df r)) = 0) :
    (renderPass clf reg df r true).viral_card = "--" ∧
    (renderPass clf reg df r true).engagement_card = "--" ∧
    pyFormatFixed 2 ((0 : ℚ) * 100) ++ "%" = "0.00%" ∧
    pyFormatFixed 4 (0 : ℚ) = "0.0000" := by
  refine ⟨?_, ?_, ?_, ?_⟩
  · simp [renderPass, viralCardText, pyTruthy, hc]
  · simp [renderPass, engagementCardText, pyTruthy, hr]
  · norm_num [pyFormatFixed, roundHalfEven, Rat.floor_def', padZeros]
    rfl
  · norm_num [pyFormatFixed, roundHalfEven, Rat.floor_def', padZeros]
    rfl

/-- Witness for C3 at a concrete classifier, regressor, dataset and
interaction history. -/
theorem analyzed_zero_renders_placeholder_witness :
    (renderPass (fun _ => 0) (fun _ => 0) ⟨[]⟩ noInteraction
        true).viral_card = "--" ∧
    (renderPass (fun _ => 0) (fun _ => 0) ⟨[]⟩ noInteraction
        true).engagement_card = "--" ∧
    pyFormatFixed 2 ((0 : ℚ) * 100) ++ "%" = "0.00%" ∧
    pyFormatFixed 4 (0 : ℚ) = "0.0000" :=
  analyzed_zero_renders_placeholder (fun _ => 0) (fun _ => 0) ⟨[]⟩
    noInteraction rfl rfl

/-- C5: the assembled single-row feature table always has exactly the 14
fields of the code, in its fixed literal order; only the values depend on
the widget state. -/
theorem input_df_fields (w : WidgetState) :
    (input_df w).map Prod.fst =
      [ "account_type", "media_type", "content_category", "traffic_source"
      , "follower_count", "hashtags_count", "caption_length", "has_cta"
      , "is_weekend", "post_hour", "likes", "comments", "shares", "saves" ] ∧
    (input_df w).length = 14 := by
  exact ⟨rfl, rfl⟩

/-- A bounded widget's value stays in `[lo, hi]` once it is there. -/
theorem foldl_step_bounds (lo hi : ℤ) (reqs : List ℤ) (cur : ℤ)
    (h1 : lo ≤ cur) (h2 : cur ≤ hi) :
    lo ≤ reqs.foldl (boundedWidgetStep lo hi) cur ∧
      reqs.foldl (boundedWidgetStep lo hi) cur ≤ hi := by
  induction reqs generalizing cur with
  | nil => exact ⟨h1, h2⟩
  | cons a t ih =>
    simp only [List.foldl_cons]
    unfold boundedWidgetStep
    split
    next h => exact ih a h.1 h.2
    next => exact ih cur h1 h2

/-- C7: every numeric widget value that can reach the feature assembler
lies within its coded bounds, and the untouched sidebar starts at the
coded defaults. -/
theorem widget_values_bounded_and_default (df : DataFrame)
    (r : WidgetRequests) :
    (100 ≤ (widgetState df r).follower_count ∧
      (widgetState df r).follower_count ≤ 1000000) ∧
    (0 ≤ (widgetState df r).hashtags_count ∧
      (widgetState df r).hashtags_count ≤ 30) ∧
    (0 ≤ (widgetState df r).caption_length ∧
      (widgetState df r).caption_length ≤ 300) ∧
    (0 ≤ (widgetState df r).post_hour ∧ (widgetState df r).post_hour ≤ 23) ∧
    (0 ≤ (widgetState df r).likes ∧ (widgetState df r).likes ≤ 50000) ∧
    (0 ≤ (widgetState df r).comments ∧ (widgetState df r).comments ≤ 5000) ∧
    (0 ≤ (widgetState df r).shares ∧ (widgetState df r).shares ≤ 5000) ∧
    (0 ≤ (widgetState df r).saves ∧ (widgetState df r).saves ≤ 5000) ∧
    (widgetState df noInteraction).follower_count = 10000 ∧
    (widgetState df noInteraction).hashtags_count = 10 ∧
    (widgetState df noInteraction).caption_length = 50 ∧
    (widgetState df noInteraction).post_hour = 18 ∧
    (widgetState df noInteraction).likes = 500 ∧
    (widgetState df noInteraction).comments = 50 ∧
    (widgetState df noInteraction).shares = 20 ∧
    (widgetState df noInteraction).saves = 30 ∧
    Row.get (input_df (widgetState df r)) "follower_count" =
      some (.num ((widgetState df r).follower_count : ℚ)) ∧
    Row.get (input_df (widgetState df r)) "hashtags_count" =
      some (.num ((widgetState df r).hashtags_count : ℚ)) ∧
    Row.get (input_df (widgetState df r)) "caption_length" =
      some (.num ((widgetState df r).caption_length : ℚ)) ∧
    Row.get (input_df (widgetState df r)) "post_hour" =
      some (.num ((widgetState df r).post_hour : ℚ)) ∧
    Row.get (input_df (widgetState df r)) "likes" =
      some (.num ((widgetState df r).likes : ℚ)) ∧
    Row.get (input_df (widgetState df r)) "comments" =
      some (.num ((widgetState df r).comments : ℚ)) ∧
    Row.get (input_df (widgetState df r)) "shares" =
      some (.num ((widgetState df r).shares : ℚ)) ∧
    Row.get (input_df (widgetState df r)) "saves" =
      some (.num ((widgetState df r).saves : ℚ)) := by
  refine ⟨?_, ?_, ?_, ?_, ?_, ?_, ?_, ?_,
    rfl, rfl, rfl, rfl, rfl, rfl, rfl, rfl,
    rfl, rfl, rfl, rfl, rfl, rfl, rfl, rfl⟩
  all_goals exact foldl_step_bounds _ _ _ _ (by norm_num) (by norm_num)

/-- C6: training is deterministic — `random_state` is fixed to 42 in the
code, so the fitted models do not depend on the ambient RNG entropy of a
run, and any (deterministic) predict function of the fitted models agrees
across two runs on identical data at every fixed input row. -/
theorem train_models_deterministic
    (predictProba predict : FittedPipeline → Row → ℚ) (df : DataFrame)
    (e₁ e₂ : Nat) (row : Row) :
    train_models df e₁ = train_models df e₂ ∧
    predictProba (train_models df e₁).viral_model row =
      predictProba (train_models df e₂).viral_model row ∧
    predict (train_models df e₁).engagement_model row =
      predict (train_models df e₂).engagement_model row :=
  ⟨rfl, rfl, rfl⟩

/-- C8: `train_models` drops exactly the two label columns from the
feature matrix, targets `is_viral` for the classifier and
`normalized_engagement` for the regressor, one-hot-encodes precisely the
object-dtype columns, passes the remaining columns through, and fits two
150-tree forests sharing one preprocessing step. -/
theorem train_models_wiring (df : DataFrame) (e : Nat) :
    (∀ c : Column,
      c ∈ (df.dropCols ["is_viral", "normalized_engagement"]).cols ↔
        c ∈ df.cols ∧ c.name ≠ "is_viral" ∧
          c.name ≠ "normalized_engagement") ∧
    (train_models df e).viral_model.trainX =
      df.dropCols ["is_viral", "normalized_engagement"] ∧
    (train_models df e).engagement_model.trainX =
      df.dropCols ["is_viral", "normalized_engagement"] ∧
    (train_models df e).viral_model.trainY =
      (df.getCol "is_viral").elim [] Column.vals ∧
    (train_models df e).engagement_model.trainY =
      (df.getCol "normalized_engagement").elim [] Column.vals ∧
    (train_models df e).viral_model.prep.catCategories.map Prod.fst =
      (df.dropCols ["is_viral", "normalized_engagement"]).objectCols ∧
    (train_models df e).viral_model.prep.numCols =
      (df.dropCols ["is_viral", "normalized_engagement"]).numericCols ∧
    (train_models df e).viral_model.prep.encoder =
      { handle_unknown := .ignore } ∧
    (train_models df e).viral_model.params.n_estimators = 150 ∧
    (train_models df e).engagement_model.params.n_estimators = 150 ∧
    (train_models df e).viral_model.params.random_state = some 42 ∧
    (train_models df e).engagement_model.params.random_state = some 42 ∧
    (train_models df e).viral_model.prep =
      (train_models df e).engagement_model.prep := by
  refine ⟨?_, rfl, rfl, rfl, rfl, ?_, rfl, rfl, rfl, rfl, rfl, rfl, rfl⟩
  · intro c
    simp [DataFrame.dropCols, List.mem_filter, not_or]
  · simp [train_models, pipelineFit, fitPreprocessor]
    exact List.map_id _

/-- C9: the trend chart is a function of the loaded dataset only — two
render passes over the same dataset produce identical chart data whatever
the widget interactions, button state, or fitted models. -/
theorem chart_independent_of_input (clf₁ reg₁ clf₂ reg₂ : Row → ℚ)
    (df : DataFrame) (r₁ r₂ : WidgetRequests) (a₁ a₂ : Bool) :
    (renderPass clf₁ reg₁ df r₁ a₁).chart =
      (renderPass clf₂ reg₂ df r₂ a₂).chart ∧
    (renderPass clf₁ reg₁ df r₁ a₁).chart = chartData df := by
  exact ⟨rfl, rfl⟩

/-- With `handle_unknown="ignore"` the encoder never raises. -/
theorem oneHotTransform_ignore_isOk (categories : List String) (v : String) :
    ∃ out, oneHotTransform ⟨.ignore⟩ categories v = .ok out := by
  unfold oneHotTransform
  split
  · exact ⟨_, rfl⟩
  · exact ⟨_, rfl⟩

/-- `mapExcept` succeeds when every element does. -/
theorem mapExcept_ok {α β : Type} (f : α → Except String β) (l : List α)
    (h : ∀ a ∈ l, ∃ b, f a = .ok b) : ∃ bs, mapExcept f l = .ok bs := by
  induction l with
  | nil => exact ⟨[], rfl⟩
  | cons a t ih =>
    obtain ⟨b, hb⟩ := h a (List.mem_cons_self a t)
    obtain ⟨bs, hbs⟩ := ih (fun x hx => h x (List.mem_cons_of_mem a hx))
    refine ⟨b :: bs, ?_⟩
    simp only [mapExcept, hb, hbs]
    rfl

/-- C4: the trained preprocessor, whose encoder is
`OneHotEncoder(handle_unknown="ignore")`, maps a category value not seen
during training to the all-zero one-hot block, and transforming an
assembled feature row never raises — whatever the categorical values
hold — provided the fitted columns are the assembled row's fields. -/
theorem unknown_category_tolerated (df : DataFrame) (e : Nat)
    (w : WidgetState) (cats : List String) (v : String) (hv : v ∉ cats)
    (hcat : ∀ nc ∈ (train_models df e).viral_model.prep.catCategories,
      nc.1 ∈ (["account_type", "media_type", "content_category",
        "traffic_source"] : List String))
    (hnum : ∀ n ∈ (train_models df e).viral_model.prep.numCols,
      n ∈ (["follower_count", "hashtags_count", "caption_length",
        "has_cta", "is_weekend", "post_hour", "likes", "comments",
        "shares", "saves"] : List String)) :
    oneHotTransform (train_models df e).viral_model.prep.encoder cats v =
      .ok (List.replicate cats.length 0) ∧
    (∃ out, transformRow (train_models df e).viral_model.prep
      (input_df w) = .ok out) ∧
    (∃ out, transformRow (train_models df e).engagement_model.prep
      (input_df w) = .ok out) := by
  have hE : (train_models df e).viral_model.prep.encoder =
      ⟨.ignore⟩ := rfl
  have hPP : (train_models df e).engagement_model.prep =
      (train_models df e).viral_model.prep := rfl
  have hcatok : ∀ nc ∈ (train_models df e).viral_model.prep.catCategories,
      ∃ b, (match Row.get (input_df w) nc.1 with
        | some (.str s) =>
            oneHotTransform (train_models df e).viral_model.prep.encoder
              nc.2 s
        | _ =>
            (.error "categorical column missing from input" :
              Except String (List ℚ))) = .ok b := by
    intro nc hnc
    have h4 := hcat nc hnc
    simp only [List.mem_cons, List.not_mem_nil, or_false] at h4
    rw [hE]
    rcases h4 with h | h | h | h
    all_goals rw [h]
    all_goals exact oneHotTransform_ignore_isOk _ _
  have hnumok : ∀ n ∈ (train_models df e).viral_model.prep.numCols,
      ∃ b, (match Row.get (input_df w) n with
        | some (.num q) => Except.ok q
        | _ =>
            (.error "numeric column missing from input" :
              Except String ℚ)) = .ok b := by
    intro n hn
    have h10 := hnum n hn
    simp only [List.mem_cons, List.not_mem_nil, or_false] at h10
    rcases h10 with h | h | h | h | h | h | h | h | h | h
    all_goals subst h
    all_goals exact ⟨_, rfl⟩
  have hok : ∃ out, transformRow (train_models df e).viral_model.prep
      (input_df w) = .ok out := by
    obtain ⟨cp, hcp⟩ := mapExcept_ok _ _ hcatok
    obtain ⟨np, hnp⟩ := mapExcept_ok _ _ hnumok
    refine ⟨cp.flatten ++ np, ?_⟩
    simp only [transformRow, hcp, hnp]
    rfl
  refine ⟨?_, hok, by rw [hPP]; exact hok⟩
  rw [hE]
  unfold oneHotTransform
  have hcv : cats.contains v = false := by
    simpa using hv
  rw [hcv]
  rfl

/-- Dropping columns other than `n` does not change column `n`. -/
theorem getCol_dropCols (df : DataFrame) (names : List String) (n : String)
    (h : n ∉ names) : (df.dropCols names).getCol n = df.getCol n := by
  unfold DataFrame.dropCols DataFrame.getCol
  rw [List.find?_filter]
  congr 1
  funext c
  by_cases hc : c.name = n
  · subst hc
    have hcon : names.contains c.name = false := by simpa using h
    simp only [hcon, Bool.not_false, beq_self_eq_true, decide_eq_true_eq,
      true_and]
  · simp [hc]

/-- A selectbox over nonempty options always holds one of the options. -/
theorem selectboxValue_mem (options : List String) (i : Nat)
    (h : options ≠ []) : selectboxValue options i ∈ options := by
  unfold selectboxValue
  cases hg : options.get? i with
  | some v =>
    simp only [hg, Option.getD_some]
    exact List.get?_mem hg
  | none =>
    simp only [hg, Option.getD_none]
    cases options with
    | nil => exact absurd rfl h
    | cons a t =>
      simp only [List.headD_cons]
      exact List.mem_cons_self a t

/-- C10: every value a categorical selectbox can offer is among the
categories the one-hot encoder learned at fit time, so the
unknown-category branch is unreachable for UI-assembled rows: the
transform takes the known branch and yields the indicator vector. -/
theorem selectbox_choice_known_to_encoder (df : DataFrame) (e : Nat)
    (col : String) (cats : List String) (i : Nat)
    (hcol : col ∈ (["account_type", "media_type", "content_category",
      "traffic_source"] : List String))
    (hcats : (col, cats) ∈
      (train_models df e).viral_model.prep.catCategories)
    (hne : selectboxOptions df col ≠ []) :
    selectboxValue (selectboxOptions df col) i ∈ cats ∧
    cats.contains (selectboxValue (selectboxOptions df col) i) = true ∧
    oneHotTransform (train_models df e).viral_model.prep.encoder cats
        (selectboxValue (selectboxOptions df col) i) =
      .ok (cats.map (fun c =>
        if c == selectboxValue (selectboxOptions df col) i then 1
        else 0)) := by
  have hlab : col ∉ (["is_viral", "normalized_engagement"] : List String) := by
    simp only [List.mem_cons, List.not_mem_nil, or_false] at hcol
    rcases hcol with h | h | h | h
    all_goals subst h
    all_goals decide
  have hmap : (train_models df e).viral_model.prep.catCategories =
      (df.dropCols ["is_viral", "normalized_engagement"]).objectCols.map
        (fun n => (n, fitCategories
          (((df.dropCols ["is_viral", "normalized_engagement"]).getCol
            n).elim [] Column.strVals))) := rfl
  rw [hmap] at hcats
  obtain ⟨n, hn, heq⟩ := List.mem_map.mp hcats
  have hn1 : n = col := congrArg Prod.fst heq
  have hn2 : cats = fitCategories
      (((df.dropCols ["is_viral", "normalized_engagement"]).getCol n).elim
        [] Column.strVals) := (congrArg Prod.snd heq).symm
  subst hn1
  rw [getCol_dropCols df _ n hlab] at hn2
  have hcats' : cats = selectboxOptions df n := hn2
  have hmem : selectboxValue (selectboxOptions df n) i ∈ cats := by
    rw [hcats']
    exact selectboxValue_mem _ i hne
  have hcont : cats.contains (selectboxValue (selectboxOptions df n) i)
      = true := by simpa using hmem
  refine ⟨hmem, hcont, ?_⟩
  unfold oneHotTransform
  rw [hcont]
  rfl

/-- Witness for C10: on the sample dataset, selecting index 1 of the
account-type selectbox yields "Creator", which the fitted encoder knows. -/
theorem selectbox_choice_known_to_encoder_witness :
    selectboxValue (selectboxOptions sampleDF "account_type") 1 ∈
      (["Business", "Creator"] : List String) ∧
    (["Business", "Creator"] : List String).contains
      (selectboxValue (selectboxOptions sampleDF "account_type") 1)
      = true ∧
    oneHotTransform (train_models sampleDF 0).viral_model.prep.encoder
        ["Business", "Creator"]
        (selectboxValue (selectboxOptions sampleDF "account_type") 1) =
      .ok ((["Business", "Creator"] : List String).map (fun c =>
        if c == selectboxValue (selectboxOptions sampleDF "account_type") 1
        then 1 else 0)) :=
  selectbox_choice_known_to_encoder sampleDF 0 "account_type"
    ["Business", "Creator"] 1 (by decide) (by decide) (by decide)

/-- Witness for C4: on the sample dataset, transforming an assembled
feature row succeeds, and the category "Unseen" (absent from training)
one-hot-encodes to all zeros. -/
theorem unknown_category_tolerated_witness :
    oneHotTransform (train_models sampleDF 0).viral_model.prep.encoder
        ["Business", "Creator"] "Unseen" =
      .ok (List.replicate (["Business", "Creator"] : List String).length 0) ∧
    (∃ out, transformRow (train_models sampleDF 0).viral_model.prep
      (input_df (widgetState sampleDF noInteraction)) = .ok out) ∧
    (∃ out, transformRow (train_models sampleDF 0).engagement_model.prep
      (input_df (widgetState sampleDF noInteraction)) = .ok out) :=
  unknown_category_tolerated sampleDF 0 (widgetState sampleDF noInteraction)
    ["Business", "Creator"] "Unseen" (by decide) (by decide) (by decide)

end InstagramApp
